import Mathlib

/-!
Shallow embedding of the latency-reduction-in-5G core (edge/cloud task
placement with an approximate-Q-learning orchestrator), translated from
`orchestrator/environment.py`, `orchestrator/rl_orchestrator.py`,
`orchestrator/rl_agent.py` and `orchestrator/sim_interface.py`.
Python floats are modelled as exact rationals; Python exceptions raised by
a simulator object are modelled explicitly as values of an error type,
since `Node.execute_task` catches them all.
-/

namespace LatencyReduction

/-- Python's `str.lower()` for the ASCII names used in this repository,
written over the character list so it evaluates by kernel reduction. -/
def pyLower (s : String) : String := String.mk (s.data.map Char.toLower)

/-- Task record from `environment.py`: id, app type, size (MB), priority. -/
structure Task where
  task_id : ℕ
  app_type : String
  size_mb : ℚ
  priority : String
deriving DecidableEq

/-- Node record from `environment.py`. `node_type` is stored lowercased by
the constructor; `name` is the derived `f"{node_type}_{node_id}"`. -/
structure Node where
  node_id : ℕ
  node_type : String
  capacity_mbps : ℚ
  current_load : ℚ
  name : String
deriving DecidableEq

/-- Embeds `Node.__init__`: lowercases the type, zeroes the load, derives the name. -/
def mkNode (node_id : ℕ) (node_type : String) (capacity_mbps : ℚ) : Node :=
  { node_id := node_id
    node_type := pyLower node_type
    capacity_mbps := capacity_mbps
    current_load := 0
    name := pyLower node_type ++ "_" ++ toString node_id }

/-- Outcome of calling a Python method on a simulator object: it either
returns a latency value, raises `TypeError`, or raises some other exception. -/
inductive PyCall where
  | ok (v : ℚ)
  | typeError
  | otherError
deriving DecidableEq

/-- A supplied simulator object as seen by `Node.execute_task`: whether it has
a `simulate_latency` attribute, the outcome of calling it with the keyword
arguments, and the outcome of the two-argument legacy retry. -/
structure SimObject where
  hasSimulateLatency : Bool
  callWithKwargs : PyCall
  callLegacy : PyCall
deriving DecidableEq

/-- A well-behaved simulator whose latency query returns `v`. -/
def okSim (v : ℚ) : SimObject :=
  { hasSimulateLatency := true, callWithKwargs := .ok v, callLegacy := .ok 0 }

/-- Constant `net_latency = 0.0` used when no simulator is supplied (the initial value is
never overwritten). -/
def noSimNetLatency : ℚ := 0

/-- The `0.001` fallback used when a supplied simulator lacks
`simulate_latency` or raises. -/
def fallbackNetLatency : ℚ := 1 / 1000

/-- Network-latency resolution in `Node.execute_task`: no simulator gives
`0.0`; a simulator without the attribute gives the fallback; the keyword call
is tried first, a `TypeError` triggers the legacy two-argument retry, and any
other exception (from either call) is caught and gives the fallback. -/
def netLatency : Option SimObject → ℚ
  | none => noSimNetLatency
  | some s =>
    if s.hasSimulateLatency then
      match s.callWithKwargs with
      | .ok v => v
      | .typeError =>
        match s.callLegacy with
        | .ok v => v
        | _ => fallbackNetLatency
      | .otherError => fallbackNetLatency
    else fallbackNetLatency

/-- Power model of `Node.execute_task`: edge 10 W. -/
def edgePowerWatts : ℚ := 10

/-- Power model of `Node.execute_task`: non-edge (cloud) 50 W. -/
def cloudPowerWatts : ℚ := 50

/-- Embeds `power_watts = 10.0 if self.node_type == "edge" else 50.0`. -/
def nodePower (n : Node) : ℚ :=
  if n.node_type = "edge" then edgePowerWatts else cloudPowerWatts

/-- Embeds `Node.execute_task`: returns `(latency_ms, energy_joules)` and the
updated node (`current_load += task.size_mb`). -/
def executeTask (n : Node) (t : Task) (sim : Option SimObject) :
    (ℚ × ℚ) × Node :=
  let processing_time := t.size_mb / n.capacity_mbps
  let net := netLatency sim
  let total_latency_sec := processing_time + net
  let total_latency_ms := total_latency_sec * 1000
  let energy_joules := nodePower n * total_latency_sec
  ((total_latency_ms, energy_joules),
    { n with current_load := n.current_load + t.size_mb })

/-- Embeds `Node.reset_load`: sets `current_load` to 0. -/
def resetLoad (n : Node) : Node := { n with current_load := 0 }

/-! Vector arithmetic over rational lists, mirroring the pointwise numpy
operations used on the weight vectors. -/

/-- Dot product of two equally long numeric vectors (`np.dot`). -/
def dot (w x : List ℚ) : ℚ := (List.zipWith (· * ·) w x).sum

/-- Pointwise sum (`numpy +` on equally shaped arrays). -/
def addV (x y : List ℚ) : List ℚ := List.zipWith (· + ·) x y

/-- Scalar times vector (`numpy` scalar broadcasting). -/
def smulV (c : ℚ) (x : List ℚ) : List ℚ := x.map (fun a => c * a)

/-! Embedding of `rl_orchestrator.py`. -/

/-- Raw state tuple returned by `RLBasedOrchestrator._get_state_raw`:
`(app_idx, prio_idx, size_mb, load_norm)`. -/
structure RawState where
  app_idx : ℕ
  prio_idx : ℕ
  size_mb : ℚ
  load_norm : ℚ
deriving DecidableEq

/-- Embeds `app_map.get(task.app_type.lower(), 0)` with
`{"iot": 0, "arvr": 1, "vanet": 2}`. -/
def appIdx (app : String) : ℕ :=
  if pyLower app = "iot" then 0
  else if pyLower app = "arvr" then 1
  else if pyLower app = "vanet" then 2
  else 0

/-- Embeds `prio_map.get(task.priority.lower(), 0)` with
`{"low": 0, "medium": 1, "high": 2}`. -/
def prioIdx (p : String) : ℕ :=
  if pyLower p = "low" then 0
  else if pyLower p = "medium" then 1
  else if pyLower p = "high" then 2
  else 0

/-- Embeds `RLBasedOrchestrator._get_state_raw`. -/
def getStateRaw (t : Task) (edge_load cloud_load : ℚ) : RawState :=
  let avg_load := (edge_load + cloud_load) / 2
  let load_norm := min 1 (max 0 (avg_load / 100))
  { app_idx := appIdx t.app_type
    prio_idx := prioIdx t.priority
    size_mb := t.size_mb
    load_norm := load_norm }

/-- Embeds `FeatureExtractor.get_features` with the default `cloud_idx = 1`:
`[Bias, Is_Cloud, Size, Load, Size*Load, Priority]`. -/
def getFeatures (s : RawState) (action : ℕ) : List ℚ :=
  [1,
   if action = 1 then 1 else 0,
   s.size_mb / 10,
   s.load_norm,
   (s.size_mb / 10) * s.load_norm,
   (s.prio_idx : ℚ) / 2]

/-- Mutable state of `RLBasedOrchestrator` (the fields its methods read or
write). -/
structure Orch where
  edge : Node
  cloud : Node
  episodes : ℕ
  epsilon : ℚ
  alpha : ℚ
  gamma : ℚ
  weights : List ℚ
  w_latency : ℚ
  w_energy : ℚ
deriving DecidableEq

/-- Embeds `RLBasedOrchestrator._get_q`: dot product of the weights with the
feature vector. -/
def Orch.getQ (o : Orch) (s : RawState) (a : ℕ) : ℚ :=
  dot o.weights (getFeatures s a)

/-- Embeds `RLBasedOrchestrator.update_q` (AQL gradient-descent update). -/
def Orch.updateQ (o : Orch) (s : RawState) (a : ℕ) (reward : ℚ)
    (next_state : RawState) : Orch :=
  let q_next_max := max (o.getQ next_state 0) (o.getQ next_state 1)
  let target := reward + o.gamma * q_next_max
  let prediction := o.getQ s a
  let td_error := target - prediction
  let features := getFeatures s a
  { o with weights := addV o.weights (smulV (o.alpha * td_error) features) }

/-- Embeds `RLBasedOrchestrator.choose_action` (ε-greedy): `draw` is the value of
`random.random()` and `pick` the value of `random.choice([0, 1])`. -/
def Orch.chooseAction (o : Orch) (draw : ℚ) (pick : ℕ) (s : RawState) : ℕ :=
  if draw < o.epsilon then pick
  else if o.getQ s 0 ≥ o.getQ s 1 then 0 else 1

/-- Embeds `RLBasedOrchestrator.choose_action_greedy`. -/
def Orch.chooseActionGreedy (o : Orch) (s : RawState) : ℕ :=
  if o.getQ s 0 ≥ o.getQ s 1 then 0 else 1

/-! Embedding of `rl_agent.py`. -/

/-- Raw state consumed by `RLAgent.featurize`:
`[latency_edge, latency_cloud, edge_load, task_size]`. -/
structure AgentState where
  latency_edge : ℚ
  latency_cloud : ℚ
  edge_load : ℚ
  task_size : ℚ
deriving DecidableEq

/-- Mutable state of `RLAgent`. -/
structure Agent where
  lr : ℚ
  gamma : ℚ
  epsilon : ℚ
  weights : List ℚ
deriving DecidableEq

/-- Embeds `RLAgent.featurize`. -/
def featurize (s : AgentState) : List ℚ :=
  [s.latency_edge / 50, s.latency_cloud / 50, s.edge_load, s.task_size / 10]

/-- The feature vector `RLAgent.q_value` actually dots the weights with:
`featurize(state)`, scaled by `1.1` when the action is cloud (`1`). -/
def agentFeatures (s : AgentState) (a : ℕ) : List ℚ :=
  if a = 1 then smulV (11 / 10) (featurize s) else featurize s

/-- Embeds `RLAgent.q_value` (via `predict_q`, i.e. `np.dot`). -/
def Agent.qValue (ag : Agent) (s : AgentState) (a : ℕ) : ℚ :=
  dot ag.weights (agentFeatures s a)

/-- Embeds `RLAgent.update`: note the gradient step uses the unscaled
`featurize(state)`, not the action-scaled vector used by `q_value`. -/
def Agent.update (ag : Agent) (s : AgentState) (a : ℕ) (reward : ℚ)
    (next_state : AgentState) : Agent :=
  let features := featurize s
  let current_q := ag.qValue s a
  let next_q_edge := ag.qValue next_state 0
  let next_q_cloud := ag.qValue next_state 1
  let target := reward + ag.gamma * max next_q_edge next_q_cloud
  let td_error := target - current_q
  { ag with weights := addV ag.weights (smulV (ag.lr * td_error) features) }

/-- The weight update exactly as the specification states it for both
learners: `w + α·(reward + γ·max_a Q(s2,a) − Q(s,a))·φ(s,a)`, with `φ(s,a)`
the feature vector that `Q` dots the weights with (for `RLAgent` that is
`agentFeatures`). Stated from the spec, to be compared with
`Agent.update`. -/
def specAgentUpdateWeights (ag : Agent) (s : AgentState) (a : ℕ) (reward : ℚ)
    (next_state : AgentState) : List ℚ :=
  addV ag.weights
    (smulV
      (ag.lr *
        (reward + ag.gamma * max (ag.qValue next_state 0) (ag.qValue next_state 1)
          - ag.qValue s a))
      (agentFeatures s a))

/-! Embedding of the training loop `RLBasedOrchestrator.simulate_environment`.
All random draws of the Python loop (generated task, exploration draw,
exploration choice, next task, simulator jitter) are supplied by an explicit
oracle indexed by episode number and task number, so the loop itself is a
deterministic fold. -/

/-- Randomness oracle for one training run. -/
structure TrainOracle where
  task : ℕ → ℕ → Task
  nextTask : ℕ → ℕ → Task
  draw : ℕ → ℕ → ℚ
  pick : ℕ → ℕ → ℕ
  net : ℕ → ℕ → ℚ

/-- Embeds `RLBasedOrchestrator.assign_and_execute`, returning the updated
orchestrator (the chosen node's load grows) and `(latency_ms, energy)`. -/
def Orch.assignAndExecute (o : Orch) (t : Task) (action : ℕ)
    (sim : Option SimObject) : Orch × ℚ × ℚ :=
  if action = 0 then
    let r := executeTask o.edge t sim
    ({ o with edge := r.2 }, r.1.1, r.1.2)
  else
    let r := executeTask o.cloud t sim
    ({ o with cloud := r.2 }, r.1.1, r.1.2)

/-- One iteration of the inner task loop of `simulate_environment`:
generate the task, pick the action ε-greedily, execute it, compute the
reward `-((latency/100)·w_latency + energy·w_energy)`, form the next state
from the freshly generated next task, and apply `update_q`. Returns the
updated orchestrator, the reward, and the observed latency (the latter kept
as instrumentation for stating properties about the run). -/
def runTaskStep (oracle : TrainOracle) (ep i : ℕ) (o : Orch) : Orch × ℚ × ℚ :=
  let t := oracle.task ep i
  let state := getStateRaw t o.edge.current_load o.cloud.current_load
  let action := o.chooseAction (oracle.draw ep i) (oracle.pick ep i) state
  let res := o.assignAndExecute t action (some (okSim (oracle.net ep i)))
  let o1 := res.1
  let latency := res.2.1
  let energy := res.2.2
  let reward := -((latency / 100) * o.w_latency + energy * o.w_energy)
  let nt := oracle.nextTask ep i
  let next_state := getStateRaw nt o1.edge.current_load o1.cloud.current_load
  (o1.updateQ state action reward next_state, reward, latency)

/-- Exploration floor `0.05` of `simulate_environment`. -/
def epsilonFloor : ℚ := 1 / 20

/-- Geometric exploration decay factor `0.99` of `simulate_environment`. -/
def epsilonDecay : ℚ := 99 / 100

/-- Per-episode exploration update
`self.epsilon = max(0.05, self.epsilon * 0.99)`. -/
def decayEpsilon (e : ℚ) : ℚ := max epsilonFloor (e * epsilonDecay)

/-- One iteration of the inner fold of an episode: run the task step on the
carried orchestrator, add its reward to the episode total, append its
latency to the trace. -/
def taskFold (oracle : TrainOracle) (ep : ℕ) (acc : Orch × ℚ × List ℚ)
    (i : ℕ) : Orch × ℚ × List ℚ :=
  let st := runTaskStep oracle ep i acc.1
  (st.1, acc.2.1 + st.2.1, acc.2.2 ++ [st.2.2])

/-- One episode of `simulate_environment`: reset both nodes' loads, run
`numTasks` task steps accumulating the episode reward (and the latency
trace), then decay ε. -/
def runEpisode (oracle : TrainOracle) (numTasks ep : ℕ) (o : Orch) :
    Orch × ℚ × List ℚ :=
  let o0 := { o with edge := resetLoad o.edge, cloud := resetLoad o.cloud }
  let r := (List.range numTasks).foldl (taskFold oracle ep) (o0, 0, [])
  ({ r.1 with epsilon := decayEpsilon r.1.epsilon }, r.2.1, r.2.2)

/-- One iteration of the outer fold of the training loop: run an episode on
the carried orchestrator, append the episode reward to the history, extend
the latency trace. -/
def episodeFold (oracle : TrainOracle) (numTasks : ℕ)
    (acc : Orch × List ℚ × List ℚ) (ep : ℕ) : Orch × List ℚ × List ℚ :=
  let r := runEpisode oracle numTasks ep acc.1
  (r.1, acc.2.1 ++ [r.2.1], acc.2.2 ++ r.2.2)

/-- Embeds the whole episode loop of `simulate_environment`: final
orchestrator state, the list of per-episode total rewards, and the latency
trace of the run. -/
def simulateEnvironment (oracle : TrainOracle) (numTasks : ℕ) (o : Orch) :
    Orch × List ℚ × List ℚ :=
  (List.range o.episodes).foldl (episodeFold oracle numTasks) (o, [], [])

/-- Return value of `simulate_environment`: the source returns the literal
pair `0, total_rewards` (the comment in the source calls the first component
a dummy latency kept for signature compatibility). -/
def simulateEnvironmentReturn (oracle : TrainOracle) (numTasks : ℕ)
    (o : Orch) : ℚ × List ℚ :=
  (0, (simulateEnvironment oracle numTasks o).2.1)

/-- Average of a list of latencies (what a derived average-latency estimate
for the run would be). -/
def averageLatency (l : List ℚ) : ℚ := l.sum / l.length

/-! Embedding of the persistence utilities `save_weights` / `load_weights`.
The file system is modelled as a map from paths to an optional stored
weight vector; `none` covers both a missing and a corrupt file, i.e. every
case in which `np.load` raises. `np.save`/`np.load` of a float array is an
exact round trip, so a successfully stored vector is returned unchanged. -/

/-- File-system model for the `.npy` weight artifacts. -/
def FileStore : Type := String → Option (List ℚ)

/-- The file name `np.save` actually writes to: numpy appends the `.npy`
extension when the given path does not already end with it. -/
def npSavePath (path : String) : String :=
  if (".npy".data).isSuffixOf path.data then path else path ++ ".npy"

/-- Embeds `save_weights`: `np.save(path, self.weights)` stores the vector
at `path` with `.npy` appended when the suffix is absent. -/
def saveWeights (fs : FileStore) (path : String) (o : Orch) : FileStore :=
  fun p => if p = npSavePath path then some o.weights else fs p

/-- Embeds `load_weights`: on success assign the loaded vector to
`self.weights` and return `True`; if `np.load` raises (missing or corrupt
file) the assignment never happens, the exception is caught and `False` is
returned. -/
def loadWeights (fs : FileStore) (path : String) (o : Orch) : Bool × Orch :=
  match fs path with
  | some w => (true, { o with weights := w })
  | none => (false, o)

/-! Embedding of the simulator factory in `sim_interface.py`. -/

/-- The concrete simulator classes the factory can instantiate. -/
inductive SimKind where
  | fiveGDistributed
  | simu5GAdapter
deriving DecidableEq

/-- Embeds the `_AVAILABLE_SIMULATORS` registry. -/
def availableSimulators : List (String × SimKind) :=
  [("simple", .fiveGDistributed),
   ("fiveg", .fiveGDistributed),
   ("simu5g", .simu5GAdapter)]

/-- Embeds `get_simulator`: lowercase the requested name, look it up in the
registry, and raise `ValueError` (modelled as `Except.error`) when the key
is absent. -/
def getSimulator (name : String) : Except String SimKind :=
  let key := pyLower name
  match availableSimulators.lookup key with
  | some k => Except.ok k
  | none => Except.error ("Unknown simulator " ++ name)

/-! Concrete instances used to evaluate the definitions on explicit
inputs. -/

/-- A deterministic oracle: every generated task is a 2 MB low-priority IoT
task, the exploration draw is 1 (never below ε for ε ≤ 1, so the policy
exploits), and the simulator always reports zero network latency. -/
def sampleOracle : TrainOracle :=
  { task := fun _ _ => ⟨0, "IoT", 2, "low"⟩
    nextTask := fun _ _ => ⟨1, "IoT", 2, "low"⟩
    draw := fun _ _ => 1
    pick := fun _ _ => 0
    net := fun _ _ => 0 }

/-- An orchestrator with the constructor's default nodes and
hyper-parameters, one training episode, and zero initial weights. -/
def sampleOrch : Orch :=
  { edge := mkNode 0 "edge" 2
    cloud := mkNode 1 "cloud" 8
    episodes := 1
    epsilon := 3 / 10
    alpha := 1 / 100
    gamma := 9 / 10
    weights := [0, 0, 0, 0, 0, 0]
    w_latency := 5
    w_energy := 1 / 10 }

/-- The sample orchestrator configured with an exploration rate below the
`0.05` floor. -/
def lowEpsilonOrch : Orch := { sampleOrch with epsilon := 1 / 100 }

/-! Theorems. -/

/-- Claim C1 (amended): `RLBasedOrchestrator.update_q` applies the
linear-approximation temporal-difference rule exactly — new weights equal
old weights plus `α·(reward + γ·max_a Q(s2,a) − Q(s,a))·φ(s,a)` with
`Q(s,a) = weights · φ(s,a)` — and changes no other field. `RLAgent.update`
applies the same rule but with the unscaled `featurize(state)` as the
gradient direction, which coincides with the feature vector `φ(s,a)` used
by its `q_value` only for the edge action (0); no other agent field
changes. -/
theorem c1_td_update_rule (o : Orch) (s : RawState) (a : ℕ) (r : ℚ)
    (s2 : RawState) (ag : Agent) (sa : AgentState) (aa : ℕ) (ra : ℚ)
    (sa2 : AgentState) :
    (o.updateQ s a r s2).weights
      = addV o.weights
          (smulV
            (o.alpha * (r + o.gamma * max (o.getQ s2 0) (o.getQ s2 1) - o.getQ s a))
            (getFeatures s a))
    ∧ (o.updateQ s a r s2).edge = o.edge
    ∧ (o.updateQ s a r s2).cloud = o.cloud
    ∧ (o.updateQ s a r s2).episodes = o.episodes
    ∧ (o.updateQ s a r s2).epsilon = o.epsilon
    ∧ (o.updateQ s a r s2).alpha = o.alpha
    ∧ (o.updateQ s a r s2).gamma = o.gamma
    ∧ (o.updateQ s a r s2).w_latency = o.w_latency
    ∧ (o.updateQ s a r s2).w_energy = o.w_energy
    ∧ (ag.update sa aa ra sa2).weights
      = addV ag.weights
          (smulV
            (ag.lr *
              (ra + ag.gamma * max (ag.qValue sa2 0) (ag.qValue sa2 1)
                - ag.qValue sa aa))
            (featurize sa))
    ∧ (ag.update sa aa ra sa2).lr = ag.lr
    ∧ (ag.update sa aa ra sa2).gamma = ag.gamma
    ∧ (ag.update sa aa ra sa2).epsilon = ag.epsilon
    ∧ featurize sa = agentFeatures sa 0 :=
  ⟨rfl, rfl, rfl, rfl, rfl, rfl, rfl, rfl, rfl, rfl, rfl, rfl, rfl, rfl⟩

/-- Claim C1 counterexample: at a concrete input with the cloud action (1),
`RLAgent.update` does not produce `w + α·error·φ(s,a)` for the feature
vector `φ` its own `q_value` dots the weights with: the update direction
misses the 1.1 cloud scaling. -/
theorem c1_agent_cloud_action_deviates :
    (Agent.update ⟨1/10, 9/10, 1/5, [0, 0, 0, 0]⟩ ⟨50, 50, 1, 10⟩ 1 1
        ⟨50, 50, 1, 10⟩).weights
      ≠ specAgentUpdateWeights ⟨1/10, 9/10, 1/5, [0, 0, 0, 0]⟩
          ⟨50, 50, 1, 10⟩ 1 1 ⟨50, 50, 1, 10⟩ := by
  norm_num [Agent.update, specAgentUpdateWeights, Agent.qValue, agentFeatures,
    featurize, dot, addV, smulV]

/-- Claim C2: `Node.execute_task` returns
`latency_ms = (size/capacity + net) × 1000` and
`energy = power × (size/capacity + net)`, where `power` is the fixed
per-node-type constant (edge 10 W, strictly below the 50 W of every
non-edge node), and `net` is the simulator's returned value when a
well-behaved simulator is supplied and the fixed constant `0.0` when none
is supplied. -/
theorem c2_execute_task_formula (t : Task) (n : Node) (sim : Option SimObject)
    (hs : 0 < t.size_mb) (hc : 0 < n.capacity_mbps) :
    (executeTask n t sim).1.1
        = (t.size_mb / n.capacity_mbps + netLatency sim) * 1000
    ∧ (executeTask n t sim).1.2
        = nodePower n * (t.size_mb / n.capacity_mbps + netLatency sim)
    ∧ (n.node_type = "edge" → nodePower n = edgePowerWatts)
    ∧ (n.node_type ≠ "edge" → nodePower n = cloudPowerWatts)
    ∧ edgePowerWatts < cloudPowerWatts
    ∧ (∀ v, sim = some (okSim v) → netLatency sim = v)
    ∧ (sim = none → netLatency sim = noSimNetLatency) := by
  refine ⟨rfl, rfl, ?_, ?_, ?_, ?_, ?_⟩
  · intro h; simp [nodePower, h]
  · intro h; simp [nodePower, h]
  · norm_num [edgePowerWatts, cloudPowerWatts]
  · rintro v rfl; rfl
  · rintro rfl; rfl

/-- Claim C2 witness at a concrete task, node and absent simulator. -/
theorem c2_execute_task_formula_witness :
    (0 : ℚ) < 2 ∧ (0 : ℚ) < 4
    ∧ (executeTask (mkNode 0 "edge" 4) ⟨0, "IoT", 2, "low"⟩ none).1.1
        = ((2 : ℚ) / 4 + netLatency none) * 1000 :=
  ⟨by norm_num, by norm_num,
    (c2_execute_task_formula ⟨0, "IoT", 2, "low"⟩ (mkNode 0 "edge" 4) none
      (by norm_num) (by norm_num [mkNode])).1⟩

/-- Claim C3: `execute_task` adds exactly `task.size_mb` to the node's
`current_load` and changes no other field; `reset_load` zeroes
`current_load` and changes no other field. -/
theorem c3_load_frame (n : Node) (t : Task) (sim : Option SimObject) :
    (executeTask n t sim).2.current_load = n.current_load + t.size_mb
    ∧ (executeTask n t sim).2.node_id = n.node_id
    ∧ (executeTask n t sim).2.node_type = n.node_type
    ∧ (executeTask n t sim).2.capacity_mbps = n.capacity_mbps
    ∧ (executeTask n t sim).2.name = n.name
    ∧ (resetLoad n).current_load = 0
    ∧ (resetLoad n).node_id = n.node_id
    ∧ (resetLoad n).node_type = n.node_type
    ∧ (resetLoad n).capacity_mbps = n.capacity_mbps
    ∧ (resetLoad n).name = n.name :=
  ⟨rfl, rfl, rfl, rfl, rfl, rfl, rfl, rfl, rfl, rfl⟩

/-- Claim C4: a supplied simulator whose latency query raises (on the
keyword call, and on the legacy retry when the first raise is a
`TypeError`) never aborts `execute_task`: the `0.001` fallback latency is
substituted, the usual `(latency_ms, energy)` pair is returned, and the
load is still incremented. -/
theorem c4_broken_simulator_recovered (n : Node) (t : Task) (s : SimObject)
    (hattr : s.hasSimulateLatency = true)
    (hkw : s.callWithKwargs = .typeError ∨ s.callWithKwargs = .otherError)
    (hleg : s.callWithKwargs = .typeError →
      s.callLegacy = .typeError ∨ s.callLegacy = .otherError) :
    netLatency (some s) = fallbackNetLatency
    ∧ (executeTask n t (some s)).1.1
        = (t.size_mb / n.capacity_mbps + fallbackNetLatency) * 1000
    ∧ (executeTask n t (some s)).1.2
        = nodePower n * (t.size_mb / n.capacity_mbps + fallbackNetLatency)
    ∧ (executeTask n t (some s)).2.current_load
        = n.current_load + t.size_mb := by
  have hnet : netLatency (some s) = fallbackNetLatency := by
    rcases hkw with h | h
    · rcases hleg h with h2 | h2 <;> simp [netLatency, hattr, h, h2]
    · simp [netLatency, hattr, h]
  exact ⟨hnet, by simp [executeTask, hnet], by simp [executeTask, hnet], rfl⟩

/-- Claim C4 witness: a simulator raising a non-`TypeError` exception. -/
theorem c4_broken_simulator_recovered_witness :
    netLatency (some ⟨true, .otherError, .ok 0⟩) = fallbackNetLatency :=
  (c4_broken_simulator_recovered (mkNode 0 "edge" 2) ⟨0, "IoT", 2, "low"⟩
    ⟨true, .otherError, .ok 0⟩ rfl (Or.inr rfl) (by intro h; cases h)).1

/-- Claim C5 (amended): `get_simulator` resolves names case-insensitively —
it returns a concrete simulator instance for every name whose lowercasing
is a registered key, and raises a `ValueError` naming the unknown
simulator for every name whose lowercasing is not registered, never
silently defaulting. -/
theorem c5_factory_resolution (name : String) :
    (∀ k, availableSimulators.lookup (pyLower name) = some k →
        getSimulator name = Except.ok k)
    ∧ (availableSimulators.lookup (pyLower name) = none →
        getSimulator name = Except.error ("Unknown simulator " ++ name)) := by
  constructor
  · intro k h; simp [getSimulator, h]
  · intro h; simp [getSimulator, h]

/-- Claim C5 witness: the registered name "simple" resolves, the
unregistered name "omnet" is a hard error. -/
theorem c5_factory_resolution_witness :
    getSimulator "simple" = Except.ok SimKind.fiveGDistributed
    ∧ getSimulator "omnet" = Except.error ("Unknown simulator " ++ "omnet") :=
  ⟨(c5_factory_resolution "simple").1 SimKind.fiveGDistributed (by decide),
   (c5_factory_resolution "omnet").2 (by decide)⟩

/-- Claim C5 counterexample: "SIMPLE" is not a key of the registry, yet
`get_simulator("SIMPLE")` succeeds (the name is lowercased before lookup)
instead of raising a configuration error. -/
theorem c5_uppercase_name_accepted :
    getSimulator "SIMPLE" = Except.ok SimKind.fiveGDistributed
    ∧ availableSimulators.lookup "SIMPLE" = none :=
  ⟨rfl, by decide⟩

/-- Claim C7 (amended): for every path that already carries the `.npy`
extension, saving the weight vector and loading it back succeeds and
reproduces the exact same vector (the artifact round trip keeps the values
exactly), hence identical value estimates `Q(s, a)` for every queried
state-action pair; for a path without the extension `np.save` writes to
`path + ".npy"` while `np.load` reads the literal path, so the immediate
round trip at such a path reports failure instead. -/
theorem c7_round_trip_npy_paths (fs : FileStore) (path : String)
    (o o2 : Orch) (h : (".npy".data).isSuffixOf path.data = true) :
    (loadWeights (saveWeights fs path o) path o2).1 = true
    ∧ (loadWeights (saveWeights fs path o) path o2).2.weights = o.weights
    ∧ ∀ s a, (loadWeights (saveWeights fs path o) path o2).2.getQ s a
        = o.getQ s a := by
  have hp : npSavePath path = path := by
    unfold npSavePath
    rw [if_pos h]
  have hs : saveWeights fs path o path = some o.weights := by
    simp [saveWeights, hp]
  refine ⟨?_, ?_, ?_⟩ <;> simp [loadWeights, hs, Orch.getQ]

/-- Claim C7 witness at a concrete `.npy` path and weight vector. -/
theorem c7_round_trip_npy_paths_witness :
    ((".npy".data).isSuffixOf "aql_weights.npy".data = true)
    ∧ (loadWeights (saveWeights (fun _ => none) "aql_weights.npy" sampleOrch)
        "aql_weights.npy" lowEpsilonOrch).2.weights = sampleOrch.weights :=
  ⟨by decide,
   (c7_round_trip_npy_paths (fun _ => none) "aql_weights.npy" sampleOrch
     lowEpsilonOrch (by decide)).2.1⟩

/-- Claim C7 counterexample: at the extensionless path "weights" the save
lands at "weights.npy" but the load reads "weights", so the round trip
returns `False` and the loaded learner keeps its previous weights instead
of the saved vector — the round trip does not hold for every path. -/
theorem c7_extensionless_path_fails :
    (loadWeights (saveWeights (fun _ => none) "weights" sampleOrch) "weights"
        { sampleOrch with weights := [1, 0, 0, 0, 0, 0] }).1 = false
    ∧ (loadWeights (saveWeights (fun _ => none) "weights" sampleOrch) "weights"
        { sampleOrch with weights := [1, 0, 0, 0, 0, 0] }).2.weights
      ≠ sampleOrch.weights := by
  constructor
  · with_unfolding_all decide
  · with_unfolding_all decide

/-- Claim C8: `load_weights` returns `False` and leaves the in-memory state
untouched when the file is missing or corrupt (`np.load` raises), and
returns `True` on success. -/
theorem c8_load_weights_graceful (fs : FileStore) (path : String) (o : Orch) :
    (fs path = none → loadWeights fs path o = (false, o))
    ∧ (∀ w, fs path = some w →
        (loadWeights fs path o).1 = true
        ∧ (loadWeights fs path o).2 = { o with weights := w }) := by
  constructor
  · intro h; simp [loadWeights, h]
  · intro w h; simp [loadWeights, h]

/-- Claim C8 witness: loading from an empty store fails with `False` and
keeps the orchestrator unchanged. -/
theorem c8_load_weights_graceful_witness :
    loadWeights (fun _ => none) "aql_weights.npy" sampleOrch
      = (false, sampleOrch) :=
  (c8_load_weights_graceful (fun _ => none) "aql_weights.npy" sampleOrch).1 rfl

/-- Claim C10: with ε = 0, `choose_action` never explores — for every value
of the random draw (which is nonnegative) and of the exploration choice it
returns exactly `choose_action_greedy`'s action — and on a Q-value tie both
return the edge action 0. -/
theorem c10_zero_epsilon_greedy (o : Orch) (draw : ℚ) (pick : ℕ)
    (s : RawState) (he : o.epsilon = 0) (hd : 0 ≤ draw) :
    o.chooseAction draw pick s = o.chooseActionGreedy s
    ∧ (o.getQ s 0 = o.getQ s 1 →
        o.chooseAction draw pick s = 0 ∧ o.chooseActionGreedy s = 0) := by
  have hlt : ¬ draw < o.epsilon := by rw [he]; exact not_lt.mpr hd
  constructor
  · simp [Orch.chooseAction, Orch.chooseActionGreedy, hlt]
  · intro hq
    constructor <;>
      simp [Orch.chooseAction, Orch.chooseActionGreedy, hlt, hq, le_refl]

/-- Claim C10 witness at a concrete orchestrator with ε = 0 (whose zero
weights also give a Q-value tie). -/
theorem c10_zero_epsilon_greedy_witness :
    ({ sampleOrch with epsilon := 0 } : Orch).chooseAction (1/2) 1 ⟨0, 0, 2, 0⟩
      = ({ sampleOrch with epsilon := 0 } : Orch).chooseActionGreedy ⟨0, 0, 2, 0⟩
    ∧ ({ sampleOrch with epsilon := 0 } : Orch).chooseAction (1/2) 1 ⟨0, 0, 2, 0⟩
      = 0 := by
  have h := c10_zero_epsilon_greedy { sampleOrch with epsilon := 0 } (1/2) 1
    ⟨0, 0, 2, 0⟩ rfl (by norm_num)
  exact ⟨h.1, (h.2 (by simp [Orch.getQ, sampleOrch, dot, getFeatures])).1⟩

/-- Helper: `assign_and_execute` only touches the chosen node, never ε. -/
lemma assignAndExecute_epsilon (o : Orch) (t : Task) (a : ℕ)
    (sim : Option SimObject) : (o.assignAndExecute t a sim).1.epsilon = o.epsilon := by
  unfold Orch.assignAndExecute
  split <;> rfl

/-- Helper: a task step never changes ε (`update_q` only writes weights). -/
lemma runTaskStep_epsilon (oracle : TrainOracle) (ep i : ℕ) (o : Orch) :
    (runTaskStep oracle ep i o).1.epsilon = o.epsilon := by
  unfold runTaskStep
  exact assignAndExecute_epsilon o _ _ _

/-- Helper: the inner task fold never changes ε. -/
lemma foldl_taskFold_epsilon (oracle : TrainOracle) (ep : ℕ) :
    ∀ (l : List ℕ) (acc : Orch × ℚ × List ℚ),
      (l.foldl (taskFold oracle ep) acc).1.epsilon = acc.1.epsilon
  | [], _ => rfl
  | i :: l, acc => by
    rw [List.foldl_cons, foldl_taskFold_epsilon oracle ep l _]
    exact runTaskStep_epsilon oracle ep i acc.1

/-- Helper: each episode applies `decayEpsilon` to ε exactly once. -/
lemma runEpisode_epsilon (oracle : TrainOracle) (numTasks ep : ℕ) (o : Orch) :
    (runEpisode oracle numTasks ep o).1.epsilon = decayEpsilon o.epsilon := by
  show decayEpsilon ((List.range numTasks).foldl (taskFold oracle ep)
      ({ o with edge := resetLoad o.edge, cloud := resetLoad o.cloud },
        0, [])).1.epsilon
    = decayEpsilon o.epsilon
  rw [foldl_taskFold_epsilon]

/-- Helper: after `k` episodes ε is the `k`-fold decay of the initial ε. -/
lemma foldl_episodeFold_epsilon (oracle : TrainOracle) (numTasks : ℕ) :
    ∀ (l : List ℕ) (acc : Orch × List ℚ × List ℚ),
      (l.foldl (episodeFold oracle numTasks) acc).1.epsilon
        = decayEpsilon^[l.length] acc.1.epsilon
  | [], _ => rfl
  | ep :: l, acc => by
    rw [List.foldl_cons, foldl_episodeFold_epsilon oracle numTasks l _,
      show (episodeFold oracle numTasks acc ep).1.epsilon
          = decayEpsilon acc.1.epsilon from runEpisode_epsilon oracle numTasks ep acc.1,
      List.length_cons, Function.iterate_succ_apply]

/-- Helper: ε after the whole training run. -/
lemma simulateEnvironment_epsilon (oracle : TrainOracle) (numTasks : ℕ)
    (o : Orch) :
    (simulateEnvironment oracle numTasks o).1.epsilon
      = decayEpsilon^[o.episodes] o.epsilon := by
  unfold simulateEnvironment
  rw [foldl_episodeFold_epsilon, List.length_range]

/-- Helper: the decay step does not increase an ε already at or above the
floor. -/
lemma decayEpsilon_le_self (e : ℚ) (h : epsilonFloor ≤ e) :
    decayEpsilon e ≤ e := by
  have h0 : (0 : ℚ) ≤ e := le_trans (by norm_num [epsilonFloor]) h
  have hd : e * epsilonDecay ≤ e := by
    have : e * epsilonDecay ≤ e * 1 :=
      mul_le_mul_of_nonneg_left (by norm_num [epsilonDecay]) h0
    simpa using this
  exact max_le h hd

/-- Helper: the decay step never goes below the floor. -/
lemma epsilonFloor_le_decayEpsilon (e : ℚ) : epsilonFloor ≤ decayEpsilon e :=
  le_max_left _ _

/-- Helper: after at least one decay step ε is at least the floor. -/
lemma epsilonFloor_le_iterate (e : ℚ) (k : ℕ) :
    epsilonFloor ≤ decayEpsilon^[k + 1] e := by
  rw [Function.iterate_succ_apply']
  exact epsilonFloor_le_decayEpsilon _

/-- Helper: from an initial ε at or above the floor the decay iterates are
non-increasing. -/
lemma iterate_decayEpsilon_antitone (e : ℚ) (h : epsilonFloor ≤ e) (k : ℕ) :
    decayEpsilon^[k + 1] e ≤ decayEpsilon^[k] e := by
  cases k with
  | zero => simpa using decayEpsilon_le_self e h
  | succ j =>
    rw [Function.iterate_succ_apply' decayEpsilon (j + 1) e]
    exact decayEpsilon_le_self _ (epsilonFloor_le_iterate e j)

/-- Claim C6 (amended): every episode replaces ε exactly once by
`max(0.05, ε·0.99)`, so over the whole run ε is the iterated decay of the
initial ε; when the initial ε is at least the positive floor `0.05` the
sequence never increases, and from the first episode update on it never
falls below the floor (an initial ε below the floor is raised to the floor
by the first update). -/
theorem c6_epsilon_schedule (oracle : TrainOracle) (numTasks ep : ℕ)
    (o : Orch) (e : ℚ) (k : ℕ) (he : epsilonFloor ≤ e) :
    (runEpisode oracle numTasks ep o).1.epsilon = decayEpsilon o.epsilon
    ∧ (simulateEnvironment oracle numTasks o).1.epsilon
        = decayEpsilon^[o.episodes] o.epsilon
    ∧ decayEpsilon e = max epsilonFloor (e * epsilonDecay)
    ∧ decayEpsilon^[k + 1] e ≤ decayEpsilon^[k] e
    ∧ epsilonFloor ≤ decayEpsilon^[k + 1] e
    ∧ 0 < epsilonFloor :=
  ⟨runEpisode_epsilon oracle numTasks ep o,
   simulateEnvironment_epsilon oracle numTasks o,
   rfl,
   iterate_decayEpsilon_antitone e he k,
   epsilonFloor_le_iterate e k,
   by norm_num [epsilonFloor]⟩

/-- Claim C6 witness at the sample run (initial ε = 0.3 ≥ floor). -/
theorem c6_epsilon_schedule_witness :
    epsilonFloor ≤ (3 / 10 : ℚ)
    ∧ decayEpsilon^[1] (3 / 10) ≤ decayEpsilon^[0] (3 / 10)
    ∧ (simulateEnvironment sampleOracle 1 sampleOrch).1.epsilon
        = decayEpsilon^[sampleOrch.episodes] sampleOrch.epsilon := by
  have h := c6_epsilon_schedule sampleOracle 1 0 sampleOrch (3 / 10) 0
    (by norm_num [epsilonFloor])
  exact ⟨by norm_num [epsilonFloor], h.2.2.2.1, h.2.1⟩

/-- Claim C6 counterexample: starting from the configurable ε = 0.01, which
is below the 0.05 floor, one training episode increases ε (to the floor),
so "ε never increases over any number of episodes" is false as stated. -/
theorem c6_low_initial_epsilon_rises :
    lowEpsilonOrch.epsilon
      < (simulateEnvironment sampleOracle 1 lowEpsilonOrch).1.epsilon := by
  rw [simulateEnvironment_epsilon]
  have h1 : lowEpsilonOrch.episodes = 1 := rfl
  have h2 : lowEpsilonOrch.epsilon = 1 / 100 := rfl
  rw [h1, h2, Function.iterate_one]
  rw [show decayEpsilon (1 / 100) = 1 / 20 by
    unfold decayEpsilon
    rw [max_eq_left (by norm_num [epsilonFloor, epsilonDecay])]
    norm_num [epsilonFloor]]
  norm_num

/-- Helper: each episode appends exactly one total-reward entry. -/
lemma foldl_episodeFold_rewards_length (oracle : TrainOracle) (numTasks : ℕ) :
    ∀ (l : List ℕ) (acc : Orch × List ℚ × List ℚ),
      (l.foldl (episodeFold oracle numTasks) acc).2.1.length
        = acc.2.1.length + l.length
  | [], acc => by simp
  | ep :: l, acc => by
    rw [List.foldl_cons, foldl_episodeFold_rewards_length oracle numTasks l _,
      show (episodeFold oracle numTasks acc ep).2.1
          = acc.2.1 ++ [(runEpisode oracle numTasks ep acc.1).2.1] from rfl]
    simp
    omega

/-- Claim C9 (amended): the training loop runs exactly the configured
number of episodes with no early exit — the returned reward history has one
total-reward entry per episode, so its length equals the episode count —
and each episode's outcome is independent of the nodes' incoming load
accumulators because both are reset at the start of every episode; but the
companion value returned with the reward history is the constant placeholder
`0` (a dummy kept for signature compatibility), not a derived
average-latency estimate. -/
theorem c9_training_loop_shape (oracle : TrainOracle) (numTasks : ℕ)
    (o : Orch) (a b : ℚ) (ep : ℕ) :
    (simulateEnvironmentReturn oracle numTasks o).2.length = o.episodes
    ∧ (simulateEnvironmentReturn oracle numTasks o).1 = 0
    ∧ runEpisode oracle numTasks ep
        { o with edge := { o.edge with current_load := a },
                 cloud := { o.cloud with current_load := b } }
      = runEpisode oracle numTasks ep o := by
  refine ⟨?_, rfl, rfl⟩
  show (simulateEnvironment oracle numTasks o).2.1.length = o.episodes
  unfold simulateEnvironment
  rw [foldl_episodeFold_rewards_length]
  simp

set_option maxRecDepth 100000 in
/-- Claim C9 counterexample: in a concrete one-episode, one-task run whose
only observed latency is 1000 ms, the first returned component is 0, not
the (derived) average latency of the run — the loop returns a dummy
constant in the latency slot. -/
theorem c9_latency_slot_is_dummy :
    (simulateEnvironmentReturn sampleOracle 1 sampleOrch).1 = 0
    ∧ averageLatency (simulateEnvironment sampleOracle 1 sampleOrch).2.2 = 1000
    ∧ (simulateEnvironmentReturn sampleOracle 1 sampleOrch).1
        ≠ averageLatency (simulateEnvironment sampleOracle 1 sampleOrch).2.2 := by
  refine ⟨rfl, by with_unfolding_all rfl, ?_⟩
  rw [show averageLatency (simulateEnvironment sampleOracle 1 sampleOrch).2.2
      = 1000 by with_unfolding_all rfl]
  norm_num [simulateEnvironmentReturn]

end LatencyReduction
